import Mathlib

/-!
Shallow embedding of `src/device_window.cuh` (namespace `draw`): the
CUDA/OpenGL interop pipeline of a `DeviceWindow` that renders a device-resident
field through a shared pixel-unpack buffer.

Modelling conventions:
* GL buffer names and CUDA graphics-resource handles are `Nat`; `0` stands for
  the GL "no buffer" name and for the `NULL` resource pointer.  Fresh handles
  are drawn from counters (`nextBuf`, `nextRes`), so a freshly allocated handle
  is distinct from every previously issued one.
* `sizeof(float) = 4` and `sizeof(dg::Color) = 3 * sizeof(float)`; buffer sizes
  are byte counts, exactly as in `glBufferData( .., N*sizeof(float), ..)`.
* The colormap (from `colormap.cuh`, an external collaborator) is an opaque
  element-wise function `f : T → C`.
* Each runtime call is also recorded as an `Event` so that ordering claims
  (map before write, unmap before draw, release before reallocation) are
  statements about the emitted trace.
* A failing runtime call that the C++ code ignores (unregistering an invalid
  handle, deleting buffer name 0) leaves the state unchanged, exactly as the
  real runtimes do; the only aborting path is the `assert` in `mapColors`
  under `DG_DEBUG`, modelled by returning `none`.
-/

namespace Draw

/-- Trace of runtime calls issued while drawing. -/
inductive Event where
  | genBuf (b : Nat)
  | bufferData (b : Nat) (bytes : Nat)
  | registerRes (r : Nat) (b : Nat)
  | unregister (r : Nat)
  | deleteBuf (b : Nat)
  | mapRes (r : Nat)
  | writeBuf (i : Nat)
  | sync
  | unmapRes (r : Nat)
  | texImage (w h : Nat)
  | quadDraw
  | swap
  deriving DecidableEq

/-- Combined state of the graphics runtime (GL buffer objects, the
`GL_PIXEL_UNPACK_BUFFER` binding, the error flag) and the compute runtime
(live interop registrations).  `C` is the color type `dg::Color`. -/
structure Sys (C : Type) where
  nextBuf : Nat
  liveBufs : List Nat
  bufBytes : Nat → Nat
  bufData : Nat → Nat → C
  binding : Nat
  glError : Bool
  nextRes : Nat
  liveRes : List Nat
  resBuf : Nat → Nat
  mappedRes : Nat → Bool

/-- `glGenBuffers(1, &bufferID)`: returns a fresh, unused buffer name. -/
def glGenBuffer {C : Type} (s : Sys C) : Sys C × Nat :=
  ({ s with nextBuf := s.nextBuf + 1, liveBufs := s.nextBuf :: s.liveBufs }, s.nextBuf)

/-- `glBindBuffer(GL_PIXEL_UNPACK_BUFFER, id)`. -/
def glBindBuffer {C : Type} (s : Sys C) (id : Nat) : Sys C :=
  { s with binding := id }

/-- `glBufferData(GL_PIXEL_UNPACK_BUFFER, bytes, NULL, GL_DYNAMIC_DRAW)` on the
currently bound buffer.  `oom` is the environment's choice of whether the
allocation fails with `GL_OUT_OF_MEMORY`: on failure the data store is absent
and the error flag is raised (the source never checks `glGetError`). -/
def glBufferData {C : Type} (s : Sys C) (bytes : Nat) (oom : Bool) : Sys C :=
  if oom then
    { s with glError := true, bufBytes := Function.update s.bufBytes s.binding 0 }
  else
    { s with bufBytes := Function.update s.bufBytes s.binding bytes }

/-- `glDeleteBuffers(1, &id)`: name 0 is silently ignored; deleting the bound
buffer resets the binding to 0. -/
def glDeleteBuffer {C : Type} (s : Sys C) (id : Nat) : Sys C :=
  if id = 0 then s
  else
    { s with liveBufs := s.liveBufs.erase id,
             binding := if s.binding = id then 0 else s.binding }

/-- `cudaGraphicsGLRegisterBuffer`: on success a fresh registration handle for
buffer `b`; on failure (`fail`, the environment's choice) the error code is
returned and `mapColors`/`draw` see handle 0 (`NULL`). -/
def cudaRegister {C : Type} (s : Sys C) (b : Nat) (fail : Bool) : Sys C × Nat :=
  if fail then (s, 0)
  else
    ({ s with nextRes := s.nextRes + 1, liveRes := s.nextRes :: s.liveRes,
              resBuf := Function.update s.resBuf s.nextRes b }, s.nextRes)

/-- `cudaGraphicsUnregisterResource(r)`: removes a live registration; on an
invalid or `NULL` handle the call returns an error and changes nothing, which
is what erasing a non-member does. -/
def cudaUnregister {C : Type} (s : Sys C) (r : Nat) : Sys C :=
  { s with liveRes := s.liveRes.erase r }

/-- `allocateGlBuffer(N)` (lines 54-62): gen, bind as pixel-unpack, allocate
`N*sizeof(float)` bytes; the id is returned with no error check of any kind. -/
def allocateGlBuffer {C : Type} (s : Sys C) (N : Nat) (oom : Bool) :
    Sys C × Nat × List Event :=
  let a := glGenBuffer s
  let s2 := glBindBuffer a.1 a.2
  let s3 := glBufferData s2 (N * 4) oom
  (s3, a.2, [Event.genBuf a.2, Event.bufferData a.2 (N * 4)])

/-- `allocateCudaGlBuffer(N)` (lines 65-75): create the GL buffer, then
register it with CUDA; on registration failure the error string is printed and
`NULL` (here 0) is returned, the GL buffer staying alive and bound. -/
def allocateCudaGlBuffer {C : Type} (s : Sys C) (N : Nat) (oom regFail : Bool) :
    Sys C × Nat × List Event :=
  let a := allocateGlBuffer s N oom
  let b := cudaRegister a.1 a.2.1 regFail
  (b.1, b.2, a.2.2 ++ [Event.registerRes b.2 a.2.1])

/-- The element-wise transform of `thrust::transform(x.begin(), x.end(), out, map)`:
positions `i < x.length` of the mapped buffer receive `f (x[i])`, the rest of
the data store is untouched. -/
def writeField {T C : Type} (f : T → C) (x : List T) (old : Nat → C) : Nat → C :=
  fun i => if h : i < x.length then f (x.get ⟨i, h⟩) else old i

/-- The calls `mapColors` issues on a valid resource, in source order:
map, one device write per element, `cudaThreadSynchronize`, unmap. -/
def mapColorsEv (n r : Nat) : List Event :=
  Event.mapRes r :: ((List.range n).map Event.writeBuf ++ [Event.sync, Event.unmapRes r])

/-- `mapColors(map, x, resource)` (lines 83-99): map the resource, get the
mapped pointer and byte size, under `DG_DEBUG` assert
`x.size() == size/3/sizeof(float)` (abort = `none`), run the transform,
synchronize, unmap.  On an invalid or `NULL` resource every CUDA call fails
(the code ignores the errors) and nothing reaches the buffer store. -/
def mapColors {T C : Type} (debug : Bool) (f : T → C) (x : List T) (r : Nat)
    (s : Sys C) : Option (Sys C × List Event) :=
  if r ∈ s.liveRes then
    if debug ∧ x.length ≠ s.bufBytes (s.resBuf r) / 3 / 4 then none
    else
      some ({ s with
                bufData := Function.update s.bufData (s.resBuf r)
                  (writeField f x (s.bufData (s.resBuf r))),
                mappedRes := Function.update s.mappedRes r false },
            mapColorsEv x.length r)
  else
    some (s, [Event.mapRes r, Event.sync, Event.unmapRes r])

/-- The member state of `struct DeviceWindow` (lines 206-211). -/
structure DeviceWindow where
  bufferID : Nat
  resource : Nat
  Nx : Nat
  Ny : Nat
  deriving DecidableEq

/-- The constructor (lines 140-148) sets `resource = NULL`, `Nx_ = Ny_ = 0`,
`bufferID = 0`. -/
def DeviceWindow.init : DeviceWindow := ⟨0, 0, 0, 0⟩

/-- The reallocation branch of `DeviceWindow::draw` (lines 179-192):
record the new dimensions, unregister the old resource, read the pixel-unpack
binding into `bufferID` and delete that buffer, allocate a fresh CUDA/GL
buffer of `3*Nx*Ny` floats, and read the binding into `bufferID` again. -/
def reallocStep {C : Type} (Nx Ny : Nat) (oom regFail : Bool)
    (w : DeviceWindow) (s : Sys C) : DeviceWindow × Sys C × List Event :=
  let s1 := cudaUnregister s w.resource
  let id1 := s1.binding
  let s2 := glDeleteBuffer s1 id1
  let a := allocateCudaGlBuffer s2 (3 * Nx * Ny) oom regFail
  (⟨a.1.binding, a.2.1, Nx, Ny⟩, a.1,
   Event.unregister w.resource :: Event.deleteBuf id1 :: a.2.2)

/-- `DeviceWindow::draw(x, Nx, Ny, map)` (lines 176-205): reallocate when the
dimensions changed, then `mapColors`, `glTexImage2D`, the textured quad, and
`glfwSwapBuffers` — unconditionally, whatever `mapColors` was given. -/
def draw {T C : Type} (debug : Bool) (f : T → C) (x : List T) (Nx Ny : Nat)
    (oom regFail : Bool) (w : DeviceWindow) (s : Sys C) :
    Option (DeviceWindow × Sys C × List Event) :=
  let p := if Nx ≠ w.Nx ∨ Ny ≠ w.Ny then reallocStep Nx Ny oom regFail w s
           else (w, s, [])
  match mapColors debug f x p.1.resource p.2.1 with
  | none => none
  | some q =>
      some (p.1, q.1, p.2.2 ++ q.2 ++ [Event.texImage Nx Ny, Event.quadDraw, Event.swap])

/-- An allocation call in the trace: `glGenBuffers` or a CUDA registration. -/
def isAllocEvent : Event → Bool
  | Event.genBuf _ => true
  | Event.registerRes _ _ => true
  | _ => false

/-- Concrete system state for C1's run: one live buffer (name 5, 36 bytes)
registered under handle 1 and bound as the pixel-unpack source. -/
def wSys : Sys Nat :=
  ⟨6, [5], fun b => if b = 5 then 36 else 0, fun _ _ => 0, 5, false, 2, [1],
   fun r => if r = 1 then 5 else 0, fun _ => false⟩

/-- Concrete system state sized for a 1×1 window: buffer 5 holds 12 bytes
(one RGB triple), registered under handle 1. -/
def wSys8 : Sys Nat :=
  ⟨6, [5], fun b => if b = 5 then 12 else 0, fun _ _ => 0, 5, false, 2, [1],
   fun r => if r = 1 then 5 else 0, fun _ => false⟩

/-- A pristine runtime state: no buffers, no registrations, nothing bound,
fresh handles starting at 1 — the state right after `cudaGlfwInit`. -/
def cSys : Sys Nat :=
  ⟨1, [], fun _ => 0, fun _ _ => 0, 0, false, 1, [], fun _ => 0, fun _ => false⟩

/-- Concrete system state for C3's run: a window bound at 2×1 with buffer 5
(24 bytes) registered under handle 1. -/
def wSys3 : Sys Nat :=
  ⟨6, [5], fun b => if b = 5 then 24 else 0, fun _ _ => 0, 5, false, 2, [1],
   fun r => if r = 1 then 5 else 0, fun _ => false⟩

/-- The window owning `wSys3`'s buffer: `bufferID = 5`, `resource = 1`,
dimensions 2×1. -/
def wWin3 : DeviceWindow := ⟨5, 1, 2, 1⟩

/-- A concrete successful first draw: 3×1 field `[0,0,0]` on a fresh window. -/
def d9a : Option (DeviceWindow × Sys Nat × List Event) :=
  draw false (fun n : Nat => n) [0, 0, 0] 3 1 false false DeviceWindow.init cSys

def d9w : DeviceWindow := (d9a.map fun p => p.1).getD ⟨9, 9, 9, 9⟩

def d9s : Sys Nat := (d9a.map fun p => p.2.1).getD cSys

def d9t : List Event := (d9a.map fun p => p.2.2).getD []

/-- A second draw with the same 3×1 dimensions, from the state left by `d9a`. -/
def d4b : Option (DeviceWindow × Sys Nat × List Event) :=
  draw false (fun n : Nat => n) [0, 0, 0] 3 1 false false d9w d9s

def d4w : DeviceWindow := (d4b.map fun p => p.1).getD ⟨9, 9, 9, 9⟩

def d4s : Sys Nat := (d4b.map fun p => p.2.1).getD cSys

def d4t : List Event := (d4b.map fun p => p.2.2).getD []

/-- A concrete draw whose buffer setup hits a registration failure
(`regFail = true`): a 1×1 draw on a fresh window. -/
def d7a : Option (DeviceWindow × Sys Nat × List Event) :=
  draw false (fun n : Nat => n) [0] 1 1 false true DeviceWindow.init cSys

def d7w : DeviceWindow := (d7a.map fun p => p.1).getD ⟨9, 9, 9, 9⟩

def d7s : Sys Nat := (d7a.map fun p => p.2.1).getD cSys

def d7t : List Event := (d7a.map fun p => p.2.2).getD []

/-- The draw following the failed one, with unchanged dimensions and an
environment that would let a new allocation succeed. -/
def d7b : Option (DeviceWindow × Sys Nat × List Event) :=
  draw false (fun n : Nat => n) [0] 1 1 false false d7w d7s

def d7t2 : List Event := (d7b.map fun p => p.2.2).getD []

/-- Closed form of the reallocation branch, obtained by running the five
runtime calls of lines 180-191 symbolically. -/
theorem reallocStep_def {C : Type} (Nx Ny : Nat) (oom regFail : Bool)
    (w : DeviceWindow) (s : Sys C) :
    reallocStep Nx Ny oom regFail w s =
      (⟨s.nextBuf, if regFail then 0 else s.nextRes, Nx, Ny⟩,
       ⟨s.nextBuf + 1,
        s.nextBuf :: (if s.binding = 0 then s.liveBufs else s.liveBufs.erase s.binding),
        Function.update s.bufBytes s.nextBuf (if oom then 0 else 3 * Nx * Ny * 4),
        s.bufData,
        s.nextBuf,
        (if oom then true else s.glError),
        (if regFail then s.nextRes else s.nextRes + 1),
        (if regFail then s.liveRes.erase w.resource
         else s.nextRes :: s.liveRes.erase w.resource),
        (if regFail then s.resBuf else Function.update s.resBuf s.nextRes s.nextBuf),
        s.mappedRes⟩,
       [Event.unregister w.resource, Event.deleteBuf s.binding,
        Event.genBuf s.nextBuf, Event.bufferData s.nextBuf (3 * Nx * Ny * 4),
        Event.registerRes (if regFail then 0 else s.nextRes) s.nextBuf]) := by
  simp only [reallocStep, cudaUnregister, glDeleteBuffer, allocateCudaGlBuffer,
    allocateGlBuffer, glGenBuffer, glBindBuffer, glBufferData, cudaRegister]
  split_ifs <;> rfl

theorem reallocStep_fst_Nx {C : Type} (Nx Ny : Nat) (oom regFail : Bool)
    (w : DeviceWindow) (s : Sys C) :
    (reallocStep Nx Ny oom regFail w s).1.Nx = Nx := rfl

theorem reallocStep_fst_Ny {C : Type} (Nx Ny : Nat) (oom regFail : Bool)
    (w : DeviceWindow) (s : Sys C) :
    (reallocStep Nx Ny oom regFail w s).1.Ny = Ny := rfl

theorem bytes_to_count (k : Nat) : 3 * k * 4 / 3 / 4 = k := by
  omega

/-- Any successful `draw` leaves `Nx_`, `Ny_` equal to the arguments. -/
theorem draw_some_dims {T C : Type} {debug : Bool} {f : T → C} {x : List T}
    {Nx Ny : Nat} {oom regFail : Bool} {w : DeviceWindow} {s : Sys C}
    {w' : DeviceWindow} {s' : Sys C} {tr : List Event}
    (h : draw debug f x Nx Ny oom regFail w s = some (w', s', tr)) :
    w'.Nx = Nx ∧ w'.Ny = Ny := by
  unfold draw at h
  by_cases hchg : Nx ≠ w.Nx ∨ Ny ≠ w.Ny
  · rw [if_pos hchg] at h
    rcases hm : mapColors debug f x (reallocStep Nx Ny oom regFail w s).1.resource
        (reallocStep Nx Ny oom regFail w s).2.1 with _ | q
    · simp only [hm] at h; exact absurd h (by simp)
    · simp only [hm] at h
      obtain ⟨hw, -, -⟩ := Prod.mk.injEq .. ▸ Option.some.injEq .. ▸ h
      subst hw
      exact ⟨reallocStep_fst_Nx .., reallocStep_fst_Ny ..⟩
  · rw [if_neg hchg] at h
    push_neg at hchg
    rcases hm : mapColors debug f x w.resource s with _ | q
    · simp only [hm] at h; exact absurd h (by simp)
    · simp only [hm] at h
      obtain ⟨hw, -, -⟩ := Prod.mk.injEq .. ▸ Option.some.injEq .. ▸ h
      subst hw
      exact ⟨hchg.1.symm, hchg.2.symm⟩

/-- `mapColors` on a live registration whose size check passes: the transform
runs and the full event sequence is emitted. -/
theorem mapColors_eq_of_valid {T C : Type} (debug : Bool) (f : T → C) (x : List T)
    (r : Nat) (s : Sys C) (hr : r ∈ s.liveRes)
    (ha : ¬(debug = true ∧ x.length ≠ s.bufBytes (s.resBuf r) / 3 / 4)) :
    mapColors debug f x r s =
      some ({ s with
                bufData := Function.update s.bufData (s.resBuf r)
                  (writeField f x (s.bufData (s.resBuf r))),
                mappedRes := Function.update s.mappedRes r false },
            mapColorsEv x.length r) := by
  unfold mapColors
  rw [if_pos hr, if_neg ha]

/-- `mapColors` on an invalid or `NULL` registration: every CUDA call fails,
the state is untouched, no element is written. -/
theorem mapColors_eq_of_invalid {T C : Type} (debug : Bool) (f : T → C)
    (x : List T) (r : Nat) (s : Sys C) (hr : r ∉ s.liveRes) :
    mapColors debug f x r s =
      some (s, [Event.mapRes r, Event.sync, Event.unmapRes r]) := by
  unfold mapColors
  rw [if_neg hr]

/-- The events of a successful `mapColors` are a map, then only writes and the
synchronization barrier, then the unmap. -/
theorem mapColors_events {T C : Type} {debug : Bool} {f : T → C} {x : List T}
    {r : Nat} {s : Sys C} {s' : Sys C} {ev : List Event}
    (h : mapColors debug f x r s = some (s', ev)) :
    ∃ B, ev = Event.mapRes r :: (B ++ [Event.unmapRes r]) ∧
      ∀ e ∈ B, (∃ i, e = Event.writeBuf i) ∨ e = Event.sync := by
  by_cases hr : r ∈ s.liveRes
  · by_cases ha : debug = true ∧ x.length ≠ s.bufBytes (s.resBuf r) / 3 / 4
    · unfold mapColors at h
      rw [if_pos hr, if_pos ha] at h
      exact absurd h (by simp)
    · rw [mapColors_eq_of_valid debug f x r s hr ha] at h
      obtain ⟨-, hev⟩ := Prod.mk.injEq .. ▸ Option.some.injEq .. ▸ h
      refine ⟨(List.range x.length).map Event.writeBuf ++ [Event.sync], ?_, ?_⟩
      · rw [← hev]; simp [mapColorsEv]
      · intro e he
        rcases List.mem_append.1 he with he | he
        · obtain ⟨i, -, hi⟩ := List.mem_map.1 he
          exact Or.inl ⟨i, hi.symm⟩
        · simp only [List.mem_singleton] at he
          exact Or.inr he
  · rw [mapColors_eq_of_invalid debug f x r s hr] at h
    obtain ⟨-, hev⟩ := Prod.mk.injEq .. ▸ Option.some.injEq .. ▸ h
    exact ⟨[Event.sync], by rw [← hev]; rfl, by intro e he; simp only [List.mem_singleton] at he; exact Or.inr he⟩

/-- A successful `mapColors` never allocates: no `glGenBuffers`, no
registration appears among its events. -/
theorem mapColors_no_alloc {T C : Type} {debug : Bool} {f : T → C} {x : List T}
    {r : Nat} {s : Sys C} {s' : Sys C} {ev : List Event}
    (h : mapColors debug f x r s = some (s', ev)) :
    ∀ e ∈ ev, isAllocEvent e = false := by
  obtain ⟨B, hev, hB⟩ := mapColors_events h
  subst hev
  intro e he
  rcases List.mem_cons.1 he with rfl | he
  · rfl
  · rcases List.mem_append.1 he with he | he
    · rcases hB e he with ⟨i, rfl⟩ | rfl <;> rfl
    · simp only [List.mem_singleton] at he
      subst he; rfl

/-- `draw` when the dimensions changed: realloc branch taken. -/
theorem draw_eq_realloc {T C : Type} (debug : Bool) (f : T → C) (x : List T)
    (Nx Ny : Nat) (oom regFail : Bool) (w : DeviceWindow) (s : Sys C)
    (hchg : Nx ≠ w.Nx ∨ Ny ≠ w.Ny) :
    draw debug f x Nx Ny oom regFail w s =
      (match mapColors debug f x (reallocStep Nx Ny oom regFail w s).1.resource
          (reallocStep Nx Ny oom regFail w s).2.1 with
       | none => none
       | some q => some ((reallocStep Nx Ny oom regFail w s).1, q.1,
           (reallocStep Nx Ny oom regFail w s).2.2 ++ q.2 ++
             [Event.texImage Nx Ny, Event.quadDraw, Event.swap])) := by
  unfold draw
  rw [if_pos hchg]

/-- `draw` when the dimensions are unchanged: no reallocation. -/
theorem draw_eq_same {T C : Type} (debug : Bool) (f : T → C) (x : List T)
    (Nx Ny : Nat) (oom regFail : Bool) (w : DeviceWindow) (s : Sys C)
    (hchg : ¬(Nx ≠ w.Nx ∨ Ny ≠ w.Ny)) :
    draw debug f x Nx Ny oom regFail w s =
      (match mapColors debug f x w.resource s with
       | none => none
       | some q => some (w, q.1,
           q.2 ++ [Event.texImage Nx Ny, Event.quadDraw, Event.swap])) := by
  unfold draw
  rw [if_neg hchg]
  rcases hm : mapColors debug f x w.resource s with _ | q <;> simp [hm]

/-- C1: after the Frame Transform Stage (`mapColors`) returns on a registered
resource whose buffer is sized for the field (`3 * x.length` floats, i.e.
`3 * x.length * 4` bytes), the shared buffer holds the 3-component color
`colormap(x[i])` at interleaved position `i` for every `i < x.length`, and the
resource is back in the unmapped, available-for-graphics state. -/
theorem mapColors_roundtrip {T C : Type} (debug : Bool) (f : T → C) (x : List T)
    (r : Nat) (s : Sys C) (hr : r ∈ s.liveRes)
    (hsz : s.bufBytes (s.resBuf r) = 3 * x.length * 4) :
    ∃ s' ev, mapColors debug f x r s = some (s', ev) ∧
      (∀ i (hi : i < x.length), s'.bufData (s.resBuf r) i = f (x.get ⟨i, hi⟩)) ∧
      s'.mappedRes r = false := by
  have ha : ¬(debug = true ∧ x.length ≠ s.bufBytes (s.resBuf r) / 3 / 4) := by
    rw [hsz, bytes_to_count]
    rintro ⟨-, hne⟩
    exact hne rfl
  refine ⟨_, _, mapColors_eq_of_valid debug f x r s hr ha, ?_, ?_⟩
  · intro i hi
    simp [Function.update_same, writeField, hi]
  · simp [Function.update_same]

theorem mapColors_roundtrip_witness :
    1 ∈ wSys.liveRes ∧
    wSys.bufBytes (wSys.resBuf 1) = 3 * ([10, 20, 30] : List Nat).length * 4 ∧
    ∃ s' ev, mapColors false (fun n : Nat => n + 1) [10, 20, 30] 1 wSys = some (s', ev) ∧
      (∀ i (hi : i < ([10, 20, 30] : List Nat).length),
        s'.bufData (wSys.resBuf 1) i = (fun n : Nat => n + 1) (([10, 20, 30] : List Nat).get ⟨i, hi⟩)) ∧
      s'.mappedRes 1 = false :=
  ⟨by decide, by decide,
   mapColors_roundtrip false (fun n : Nat => n + 1) [10, 20, 30] 1 wSys
     (by decide) (by decide)⟩

/-- C8 counterexample: for a 1×1 window, a field of 3 = 3×1×1 elements — which
the claim says must NOT trigger the check — makes the debug assertion fire
(`mapColors` aborts), because the assertion compares the field count against
`size/3/sizeof(float)` = width×height = 1, not 3×width×height. -/
theorem mapColors_assert_cex :
    ([4, 5, 6] : List Nat).length = 3 * 1 * 1 ∧
    wSys8.bufBytes (wSys8.resBuf 1) = 3 * 1 * 1 * 4 ∧
    (mapColors true (fun n : Nat => n) [4, 5, 6] 1 wSys8).isNone = true := by
  decide

/-- C8 amended: in a debug build the assertion fires exactly when the field
element count differs from width×height (the buffer holding `3*Nx*Ny` floats);
in a release build no check is performed and `mapColors` always proceeds. -/
theorem mapColors_assert_iff {T C : Type} (f : T → C) (x : List T)
    (r Nx Ny : Nat) (s : Sys C) (hr : r ∈ s.liveRes)
    (hsz : s.bufBytes (s.resBuf r) = 3 * (Nx * Ny) * 4) :
    ((mapColors true f x r s).isNone ↔ x.length ≠ Nx * Ny) ∧
    (mapColors false f x r s).isSome = true := by
  constructor
  · unfold mapColors
    rw [if_pos hr, hsz, bytes_to_count]
    by_cases hne : x.length ≠ Nx * Ny
    · rw [if_pos ⟨rfl, hne⟩]
      simpa using hne
    · rw [if_neg (by rintro ⟨-, h⟩; exact hne h)]
      simpa using hne
  · unfold mapColors
    rw [if_pos hr, if_neg (by rintro ⟨h, -⟩; cases h)]
    rfl

theorem mapColors_assert_iff_witness :
    1 ∈ wSys8.liveRes ∧
    wSys8.bufBytes (wSys8.resBuf 1) = 3 * (1 * 1) * 4 ∧
    (((mapColors true (fun n : Nat => n) [4, 5, 6] 1 wSys8).isNone ↔
        ([4, 5, 6] : List Nat).length ≠ 1 * 1) ∧
      (mapColors false (fun n : Nat => n) [4, 5, 6] 1 wSys8).isSome = true) :=
  ⟨by decide, by decide,
   mapColors_assert_iff (fun n : Nat => n) [4, 5, 6] 1 1 1 wSys8 (by decide) (by decide)⟩

/-- A draw whose dimensions match the recorded ones leaves the window record
untouched and allocates nothing. -/
theorem draw_same_keeps_window {T C : Type} {debug : Bool} {f : T → C}
    {y : List T} {Nx Ny : Nat} {oom regFail : Bool} {w1 : DeviceWindow}
    {s1 : Sys C} {w2 : DeviceWindow} {s2 : Sys C} {t2 : List Event}
    (hNx : w1.Nx = Nx) (hNy : w1.Ny = Ny)
    (h2 : draw debug f y Nx Ny oom regFail w1 s1 = some (w2, s2, t2)) :
    w2 = w1 ∧ ∀ e ∈ t2, isAllocEvent e = false := by
  have hchg : ¬(Nx ≠ w1.Nx ∨ Ny ≠ w1.Ny) := by rw [hNx, hNy]; simp
  rw [draw_eq_same debug f y Nx Ny oom regFail w1 s1 hchg] at h2
  rcases hm : mapColors debug f y w1.resource s1 with _ | q
  · simp only [hm] at h2; exact absurd h2 (by simp)
  · obtain ⟨qs, qe⟩ := q
    simp only [hm, Option.some.injEq, Prod.mk.injEq] at h2
    obtain ⟨hw, -, ht⟩ := h2
    refine ⟨hw.symm, ?_⟩
    intro e he
    rw [← ht] at he
    rcases List.mem_append.1 he with he | he
    · exact mapColors_no_alloc hm e he
    · simp only [List.mem_cons, List.not_mem_nil, or_false] at he
      rcases he with rfl | rfl | rfl <;> rfl

/-- C2: in any successful draw call the shared buffer is handed between the
two runtimes by explicit map/unmap: the trace is a write-free prefix, the map
of the window's resource, a block containing only the compute writes and the
synchronization barrier, the unmap, and only then the texture upload, the quad
draw and the swap. -/
theorem draw_map_before_write_unmap_before_present {T C : Type} (debug : Bool)
    (f : T → C) (x : List T) (Nx Ny : Nat) (oom regFail : Bool)
    (w : DeviceWindow) (s : Sys C) (w' : DeviceWindow) (s' : Sys C) (tr : List Event)
    (h : draw debug f x Nx Ny oom regFail w s = some (w', s', tr)) :
    ∃ A B, tr = A ++ Event.mapRes w'.resource ::
        (B ++ Event.unmapRes w'.resource ::
          [Event.texImage Nx Ny, Event.quadDraw, Event.swap]) ∧
      (∀ i, Event.writeBuf i ∉ A) ∧
      (∀ e ∈ B, (∃ i, e = Event.writeBuf i) ∨ e = Event.sync) := by
  by_cases hchg : Nx ≠ w.Nx ∨ Ny ≠ w.Ny
  · rw [draw_eq_realloc debug f x Nx Ny oom regFail w s hchg] at h
    rcases hm : mapColors debug f x (reallocStep Nx Ny oom regFail w s).1.resource
        (reallocStep Nx Ny oom regFail w s).2.1 with _ | q
    · simp only [hm] at h; exact absurd h (by simp)
    · simp only [hm, Option.some.injEq, Prod.mk.injEq] at h
      obtain ⟨hw, -, htr⟩ := h
      obtain ⟨B, hev, hB⟩ := mapColors_events hm
      subst hw
      refine ⟨(reallocStep Nx Ny oom regFail w s).2.2, B, ?_, ?_, hB⟩
      · rw [← htr, hev]
        simp
      · intro i
        rw [reallocStep_def]
        simp
  · rw [draw_eq_same debug f x Nx Ny oom regFail w s hchg] at h
    rcases hm : mapColors debug f x w.resource s with _ | q
    · simp only [hm] at h; exact absurd h (by simp)
    · simp only [hm, Option.some.injEq, Prod.mk.injEq] at h
      obtain ⟨hw, -, htr⟩ := h
      obtain ⟨B, hev, hB⟩ := mapColors_events hm
      subst hw
      refine ⟨[], B, ?_, by simp, hB⟩
      rw [← htr, hev]
      simp

theorem draw_map_before_write_witness :
    ∃ A B, d9t = A ++ Event.mapRes d9w.resource ::
        (B ++ Event.unmapRes d9w.resource ::
          [Event.texImage 3 1, Event.quadDraw, Event.swap]) ∧
      (∀ i, Event.writeBuf i ∉ A) ∧
      (∀ e ∈ B, (∃ i, e = Event.writeBuf i) ∨ e = Event.sync) :=
  draw_map_before_write_unmap_before_present false (fun n : Nat => n) [0, 0, 0]
    3 1 false false DeviceWindow.init cSys d9w d9s d9t (by rfl)

/-- C4: calling `draw` twice in a row with identical dimensions performs no
reallocation: after the second call both handles are identical to the first
call's, and the second call's trace contains no `glGenBuffers` and no
registration event. -/
theorem draw_idempotent_same_dims {T C : Type} (debug : Bool) (f : T → C)
    (x y : List T) (Nx Ny : Nat) (o1 r1 o2 r2 : Bool) (w : DeviceWindow)
    (s : Sys C) (w1 w2 : DeviceWindow) (s1 s2 : Sys C) (t1 t2 : List Event)
    (h1 : draw debug f x Nx Ny o1 r1 w s = some (w1, s1, t1))
    (h2 : draw debug f y Nx Ny o2 r2 w1 s1 = some (w2, s2, t2)) :
    w2.resource = w1.resource ∧ w2.bufferID = w1.bufferID ∧
    ∀ e ∈ t2, isAllocEvent e = false := by
  obtain ⟨hNx, hNy⟩ := draw_some_dims h1
  obtain ⟨hw2, hall⟩ := draw_same_keeps_window hNx hNy h2
  exact ⟨by rw [hw2], by rw [hw2], hall⟩

theorem draw_idempotent_witness :
    d4w.resource = d9w.resource ∧ d4w.bufferID = d9w.bufferID ∧
    ∀ e ∈ d4t, isAllocEvent e = false :=
  draw_idempotent_same_dims false (fun n : Nat => n) [0, 0, 0] [0, 0, 0]
    3 1 false false false false DeviceWindow.init cSys d9w d4w d9s d4s
    d9t d4t (by rfl) (by rfl)

/-- C9: after any successful `draw(field, Nx, Ny, map)` with positive
dimensions, the recorded dimensions `Nx_`, `Ny_` equal the arguments, with or
without a reallocation. -/
theorem draw_records_dims {T C : Type} (debug : Bool) (f : T → C) (x : List T)
    (Nx Ny : Nat) (oom regFail : Bool) (w : DeviceWindow) (s : Sys C)
    (w' : DeviceWindow) (s' : Sys C) (tr : List Event)
    (hNx : 0 < Nx) (hNy : 0 < Ny)
    (h : draw debug f x Nx Ny oom regFail w s = some (w', s', tr)) :
    w'.Nx = Nx ∧ w'.Ny = Ny :=
  draw_some_dims h

theorem draw_records_dims_witness :
    0 < 3 ∧ 0 < 1 ∧ (d9w.Nx = 3 ∧ d9w.Ny = 1) :=
  ⟨by decide, by decide,
   draw_records_dims false (fun n : Nat => n) [0, 0, 0] 3 1 false false
     DeviceWindow.init cSys d9w d9s d9t (by decide) (by decide) (by rfl)⟩

/-- C10: on a fresh `DeviceWindow` (recorded dimensions (0,0), resource NULL),
a draw with `Nx = Ny = 0` skips the allocation branch entirely — the trace has
no buffer creation and no registration — and runs the transform stage on the
`NULL` handle left by the constructor, then still uploads, draws and swaps. -/
theorem draw_zero_dims_skips_alloc {T C : Type} (debug : Bool) (f : T → C)
    (x : List T) (oom regFail : Bool) (s : Sys C)
    (h0 : (0 : Nat) ∉ s.liveRes) :
    draw debug f x 0 0 oom regFail DeviceWindow.init s =
      some (DeviceWindow.init, s,
        [Event.mapRes 0, Event.sync, Event.unmapRes 0,
         Event.texImage 0 0, Event.quadDraw, Event.swap]) := by
  have hchg : ¬((0 : Nat) ≠ DeviceWindow.init.Nx ∨ (0 : Nat) ≠ DeviceWindow.init.Ny) := by
    simp [DeviceWindow.init]
  have hres : DeviceWindow.init.resource = 0 := rfl
  rw [draw_eq_same debug f x 0 0 oom regFail DeviceWindow.init s hchg, hres,
      mapColors_eq_of_invalid debug f x 0 s h0]
  rfl

theorem draw_zero_dims_witness :
    (0 : Nat) ∉ cSys.liveRes ∧
    draw false (fun n : Nat => n) ([] : List Nat) 0 0 false false
        DeviceWindow.init cSys =
      some (DeviceWindow.init, cSys,
        [Event.mapRes 0, Event.sync, Event.unmapRes 0,
         Event.texImage 0 0, Event.quadDraw, Event.swap]) :=
  ⟨by decide,
   draw_zero_dims_skips_alloc false (fun n : Nat => n) ([] : List Nat)
     false false cSys (by decide)⟩

/-- `mapColors` only writes colors and toggles the map state: the resource and
buffer bookkeeping (live lists, sizes, bindings, handles) is untouched. -/
theorem mapColors_preserves {T C : Type} {debug : Bool} {f : T → C} {x : List T}
    {r : Nat} {s s' : Sys C} {ev : List Event}
    (h : mapColors debug f x r s = some (s', ev)) :
    s'.liveRes = s.liveRes ∧ s'.liveBufs = s.liveBufs ∧
    s'.bufBytes = s.bufBytes ∧ s'.resBuf = s.resBuf ∧
    s'.nextRes = s.nextRes ∧ s'.nextBuf = s.nextBuf ∧ s'.binding = s.binding := by
  by_cases hr : r ∈ s.liveRes
  · by_cases ha : debug = true ∧ x.length ≠ s.bufBytes (s.resBuf r) / 3 / 4
    · unfold mapColors at h
      rw [if_pos hr, if_pos ha] at h
      exact absurd h (by simp)
    · rw [mapColors_eq_of_valid debug f x r s hr ha] at h
      simp only [Option.some.injEq, Prod.mk.injEq] at h
      obtain ⟨hs, -⟩ := h
      subst hs
      exact ⟨rfl, rfl, rfl, rfl, rfl, rfl, rfl⟩
  · rw [mapColors_eq_of_invalid debug f x r s hr] at h
    simp only [Option.some.injEq, Prod.mk.injEq] at h
    obtain ⟨hs, -⟩ := h
    subst hs
    exact ⟨rfl, rfl, rfl, rfl, rfl, rfl, rfl⟩

/-- C5: the first draw after construction (resource `NULL`, recorded
dimensions (0,0)) with dimensions other than (0,0) allocates a fresh
SharedBuffer sized `3*Nx*Ny` floats (`3*Nx*Ny*4` bytes) registered to the new
window handles, and tears nothing down: every previously live registration and
buffer is still live, only the new handles were added. -/
theorem draw_first_allocates {T C : Type} (debug : Bool) (f : T → C)
    (x : List T) (Nx Ny : Nat) (s : Sys C)
    (hnz : ¬(Nx = 0 ∧ Ny = 0))
    (hbind : s.binding = 0) (h0 : (0 : Nat) ∉ s.liveRes)
    (hdbg : debug = true → x.length = Nx * Ny) :
    ∃ w' s' tr, draw debug f x Nx Ny false false DeviceWindow.init s = some (w', s', tr) ∧
      s'.liveRes = s.nextRes :: s.liveRes ∧
      s'.liveBufs = s.nextBuf :: s.liveBufs ∧
      w'.resource = s.nextRes ∧ w'.bufferID = s.nextBuf ∧
      s'.resBuf w'.resource = w'.bufferID ∧
      s'.bufBytes w'.bufferID = 3 * Nx * Ny * 4 ∧
      Event.genBuf s.nextBuf ∈ tr ∧ Event.registerRes s.nextRes s.nextBuf ∈ tr := by
  have hchg : Nx ≠ DeviceWindow.init.Nx ∨ Ny ≠ DeviceWindow.init.Ny := by
    by_cases hx : Nx = 0
    · exact Or.inr (by simpa [DeviceWindow.init] using fun hy => hnz ⟨hx, hy⟩)
    · exact Or.inl (by simpa [DeviceWindow.init] using hx)
  have hR : reallocStep Nx Ny false false DeviceWindow.init s =
      (⟨s.nextBuf, s.nextRes, Nx, Ny⟩,
       ⟨s.nextBuf + 1, s.nextBuf :: s.liveBufs,
        Function.update s.bufBytes s.nextBuf (3 * Nx * Ny * 4), s.bufData,
        s.nextBuf, s.glError, s.nextRes + 1, s.nextRes :: s.liveRes,
        Function.update s.resBuf s.nextRes s.nextBuf, s.mappedRes⟩,
       [Event.unregister 0, Event.deleteBuf 0, Event.genBuf s.nextBuf,
        Event.bufferData s.nextBuf (3 * Nx * Ny * 4),
        Event.registerRes s.nextRes s.nextBuf]) := by
    rw [reallocStep_def, hbind]
    simp [DeviceWindow.init, List.erase_of_not_mem h0]
  rw [draw_eq_realloc debug f x Nx Ny false false DeviceWindow.init s hchg, hR]
  dsimp only
  have hdiv : 3 * Nx * Ny * 4 / 3 / 4 = Nx * Ny := by
    rw [Nat.mul_assoc 3 Nx Ny]
    exact bytes_to_count (Nx * Ny)
  unfold mapColors
  rw [if_pos (List.mem_cons_self s.nextRes s.liveRes)]
  dsimp only
  rw [Function.update_same, Function.update_same, hdiv,
    if_neg (by rintro ⟨hd, hne⟩; exact hne (hdbg hd))]
  refine ⟨_, _, _, rfl, rfl, rfl, rfl, rfl, ?_, ?_, ?_, ?_⟩
  · simp
  · simp
  · simp
  · simp

/-- C3: a draw with changed dimensions on a bound window first unregisters the
old resource and deletes the old graphics buffer — both strictly before the
new buffer is created (`genBuf` is the third event) — and afterwards the old
registration and the old buffer are gone from the live sets, whether or not
the reallocation succeeds (`regFail` arbitrary); the new window handles differ
from the old ones. -/
theorem draw_realloc_releases_old {T C : Type} (debug : Bool) (f : T → C)
    (x : List T) (Nx Ny : Nat) (oom regFail : Bool) (w : DeviceWindow) (s : Sys C)
    (hchg : Nx ≠ w.Nx ∨ Ny ≠ w.Ny)
    (hlr : w.resource ∈ s.liveRes) (hlb : w.bufferID ∈ s.liveBufs)
    (hbind : s.binding = w.bufferID) (hb0 : w.bufferID ≠ 0)
    (h0 : (0 : Nat) ∉ s.liveRes)
    (hndr : s.liveRes.Nodup) (hndb : s.liveBufs.Nodup)
    (hfr : w.resource < s.nextRes) (hfb : w.bufferID < s.nextBuf)
    (hdbg : debug = true → (x.length = Nx * Ny ∧ oom = false)) :
    ∃ w' s' tr rest,
      draw debug f x Nx Ny oom regFail w s = some (w', s', tr) ∧
      tr = Event.unregister w.resource :: Event.deleteBuf w.bufferID ::
           Event.genBuf s.nextBuf :: rest ∧
      w.resource ∉ s'.liveRes ∧ w.bufferID ∉ s'.liveBufs ∧
      w'.resource ≠ w.resource ∧ w'.bufferID ≠ w.bufferID := by
  have hR : reallocStep Nx Ny oom regFail w s =
      (⟨s.nextBuf, if regFail then 0 else s.nextRes, Nx, Ny⟩,
       ⟨s.nextBuf + 1, s.nextBuf :: s.liveBufs.erase w.bufferID,
        Function.update s.bufBytes s.nextBuf (if oom then 0 else 3 * Nx * Ny * 4),
        s.bufData, s.nextBuf, (if oom then true else s.glError),
        (if regFail then s.nextRes else s.nextRes + 1),
        (if regFail then s.liveRes.erase w.resource
         else s.nextRes :: s.liveRes.erase w.resource),
        (if regFail then s.resBuf else Function.update s.resBuf s.nextRes s.nextBuf),
        s.mappedRes⟩,
       [Event.unregister w.resource, Event.deleteBuf w.bufferID,
        Event.genBuf s.nextBuf, Event.bufferData s.nextBuf (3 * Nx * Ny * 4),
        Event.registerRes (if regFail then 0 else s.nextRes) s.nextBuf]) := by
    rw [reallocStep_def, hbind, if_neg hb0]
  rw [draw_eq_realloc debug f x Nx Ny oom regFail w s hchg, hR]
  dsimp only
  have hrne : w.resource ≠ 0 := fun h => h0 (h ▸ hlr)
  rcases regFail with _ | _
  · -- registration succeeds: handle s.nextRes
    simp only [Bool.false_eq_true, if_false]
    unfold mapColors
    rw [if_pos (List.mem_cons_self s.nextRes (s.liveRes.erase w.resource))]
    dsimp only
    rw [Function.update_same, Function.update_same]
    rw [if_neg (by
      rintro ⟨hd, hne⟩
      obtain ⟨hx, ho⟩ := hdbg hd
      subst ho
      simp only [Bool.false_eq_true, if_false] at hne
      exact hne (by rw [Nat.mul_assoc 3 Nx Ny, bytes_to_count]; exact hx))]
    refine ⟨_, _, _,
      Event.bufferData s.nextBuf (3 * Nx * Ny * 4) ::
        Event.registerRes s.nextRes s.nextBuf ::
          (mapColorsEv x.length s.nextRes ++
            [Event.texImage Nx Ny, Event.quadDraw, Event.swap]),
      rfl, rfl, ?_, ?_, ?_, ?_⟩
    · dsimp only
      simp only [List.mem_cons]
      rintro (h | h)
      · omega
      · exact hndr.not_mem_erase h
    · dsimp only
      simp only [List.mem_cons]
      rintro (h | h)
      · omega
      · exact hndb.not_mem_erase h
    · dsimp only; omega
    · dsimp only; omega
  · -- registration fails: handle NULL
    simp only [if_pos]
    rw [mapColors_eq_of_invalid debug f x 0 _
      (fun hmem => h0 (List.mem_of_mem_erase hmem))]
    refine ⟨_, _, _,
      Event.bufferData s.nextBuf (3 * Nx * Ny * 4) ::
        Event.registerRes 0 s.nextBuf ::
          [Event.mapRes 0, Event.sync, Event.unmapRes 0,
           Event.texImage Nx Ny, Event.quadDraw, Event.swap],
      rfl, rfl, ?_, ?_, ?_, ?_⟩
    · exact hndr.not_mem_erase
    · dsimp only
      simp only [List.mem_cons]
      rintro (h | h)
      · omega
      · exact hndb.not_mem_erase h
    · exact fun h => hrne h.symm
    · dsimp only; omega

theorem draw_realloc_releases_old_witness :
    ((1 : Nat) ≠ wWin3.Nx ∨ (1 : Nat) ≠ wWin3.Ny) ∧
    wWin3.resource ∈ wSys3.liveRes ∧
    ∃ w' s' tr rest,
      draw false (fun n : Nat => n) [0] 1 1 false false wWin3 wSys3 = some (w', s', tr) ∧
      tr = Event.unregister wWin3.resource :: Event.deleteBuf wWin3.bufferID ::
           Event.genBuf wSys3.nextBuf :: rest ∧
      wWin3.resource ∉ s'.liveRes ∧ wWin3.bufferID ∉ s'.liveBufs ∧
      w'.resource ≠ wWin3.resource ∧ w'.bufferID ≠ wWin3.bufferID :=
  ⟨by decide, by decide,
   draw_realloc_releases_old false (fun n : Nat => n) [0] 1 1 false false wWin3 wSys3
     (by decide) (by decide) (by decide) (by decide) (by decide) (by decide)
     (by decide) (by decide) (by decide) (by decide) (by decide)⟩

theorem draw_first_allocates_witness :
    ¬((3 : Nat) = 0 ∧ (1 : Nat) = 0) ∧ cSys.binding = 0 ∧ (0 : Nat) ∉ cSys.liveRes ∧
    ∃ w' s' tr,
      draw false (fun n : Nat => n) [0, 0, 0] 3 1 false false DeviceWindow.init cSys =
          some (w', s', tr) ∧
      s'.liveRes = cSys.nextRes :: cSys.liveRes ∧
      s'.liveBufs = cSys.nextBuf :: cSys.liveBufs ∧
      w'.resource = cSys.nextRes ∧ w'.bufferID = cSys.nextBuf ∧
      s'.resBuf w'.resource = w'.bufferID ∧
      s'.bufBytes w'.bufferID = 3 * 3 * 1 * 4 ∧
      Event.genBuf cSys.nextBuf ∈ tr ∧ Event.registerRes cSys.nextRes cSys.nextBuf ∈ tr :=
  ⟨by decide, by decide, by decide,
   draw_first_allocates false (fun n : Nat => n) [0, 0, 0] 3 1 cSys
     (by decide) (by decide) (by decide) (by decide)⟩

/-- C6 counterexample: with an out-of-memory graphics allocation (`oom = true`)
and a successful registration, `allocateCudaGlBuffer` raises the GL error flag
— the graphics buffer creation failed — yet returns a non-`NULL` resource: no
`InteropError` is reported for a failed buffer creation. -/
theorem allocate_error_cex :
    cSys.glError = false ∧
    (allocateCudaGlBuffer cSys 3 true false).1.glError = true ∧
    (allocateCudaGlBuffer cSys 3 true false).2.1 ≠ 0 := by
  decide

/-- C6 amended: `allocateCudaGlBuffer` returns `NULL` (0) exactly when the
cross-runtime registration fails; a failed graphics buffer creation is never
detected. In every case — in particular on registration failure — the created
graphics buffer is live and stays bound as the pixel-unpack source, so the
caller can still query and release it (ownership transfers back). -/
theorem allocate_error_iff {C : Type} (s : Sys C) (N : Nat) (oom regFail : Bool)
    (h : 0 < s.nextRes) :
    ((allocateCudaGlBuffer s N oom regFail).2.1 = 0 ↔ regFail = true) ∧
    (allocateCudaGlBuffer s N oom regFail).1.liveBufs = s.nextBuf :: s.liveBufs ∧
    (allocateCudaGlBuffer s N oom regFail).1.binding = s.nextBuf := by
  unfold allocateCudaGlBuffer allocateGlBuffer glGenBuffer glBindBuffer
    glBufferData cudaRegister
  rcases regFail with _ | _ <;> rcases oom with _ | _ <;> simp <;> omega

theorem allocate_error_iff_witness :
    0 < cSys.nextRes ∧
    (((allocateCudaGlBuffer cSys 3 false true).2.1 = 0 ↔ true = true) ∧
     (allocateCudaGlBuffer cSys 3 false true).1.liveBufs = cSys.nextBuf :: cSys.liveBufs ∧
     (allocateCudaGlBuffer cSys 3 false true).1.binding = cSys.nextBuf) :=
  ⟨by decide, allocate_error_iff cSys 3 false true (by decide)⟩

/-- C7 counterexample: on a draw whose buffer setup fails (registration
failure, resource left `NULL`), the frame is NOT dropped — the trace still
contains the texture upload, the quad draw and the buffer swap — and the next
draw with the same dimensions performs no allocation at all (no re-attempt),
because the recorded dimensions were updated before the failed allocation. -/
theorem draw_frame_drop_cex :
    d7w.resource = 0 ∧ Event.swap ∈ d7t ∧ Event.quadDraw ∈ d7t ∧
    Event.texImage 1 1 ∈ d7t ∧ d7t2.any isAllocEvent = false := by
  decide

/-- C7 amended: when the reallocation inside a draw fails at registration, the
resource handle becomes `NULL` but the frame still completes — transform stage
on the `NULL` handle, texture upload, quad draw and swap all happen — and
because `Nx_`, `Ny_` were updated before allocating, every subsequent draw with
the same dimensions skips allocation (no natural re-attempt) and keeps the
`NULL` handle. -/
theorem draw_alloc_failure_continues {T C : Type} (debug : Bool) (f : T → C)
    (x : List T) (Nx Ny : Nat) (oom : Bool) (w : DeviceWindow) (s : Sys C)
    (hchg : Nx ≠ w.Nx ∨ Ny ≠ w.Ny) (h0 : (0 : Nat) ∉ s.liveRes) :
    ∃ w' s' tr, draw debug f x Nx Ny oom true w s = some (w', s', tr) ∧
      w'.resource = 0 ∧ w'.Nx = Nx ∧ w'.Ny = Ny ∧
      Event.texImage Nx Ny ∈ tr ∧ Event.quadDraw ∈ tr ∧ Event.swap ∈ tr ∧
      ∀ (y : List T) (oom2 rf2 : Bool) (w2 : DeviceWindow) (s2 : Sys C) (t2 : List Event),
        draw debug f y Nx Ny oom2 rf2 w' s' = some (w2, s2, t2) →
          w2.resource = 0 ∧ ∀ e ∈ t2, isAllocEvent e = false := by
  rw [draw_eq_realloc debug f x Nx Ny oom true w s hchg, reallocStep_def]
  dsimp only
  simp only [if_pos]
  rw [mapColors_eq_of_invalid debug f x 0 _
    (fun hmem => h0 (List.mem_of_mem_erase hmem))]
  refine ⟨_, _, _, rfl, rfl, rfl, rfl, by simp, by simp, by simp, ?_⟩
  intro y oom2 rf2 w2 s2 t2 h2
  obtain ⟨hw2, hall⟩ := draw_same_keeps_window (by exact rfl) (by exact rfl) h2
  exact ⟨by rw [hw2], hall⟩

theorem draw_alloc_failure_witness :
    ((1 : Nat) ≠ DeviceWindow.init.Nx ∨ (1 : Nat) ≠ DeviceWindow.init.Ny) ∧
    (0 : Nat) ∉ cSys.liveRes ∧
    ∃ w' s' tr,
      draw false (fun n : Nat => n) [0] 1 1 false true DeviceWindow.init cSys =
          some (w', s', tr) ∧
      w'.resource = 0 ∧ w'.Nx = 1 ∧ w'.Ny = 1 ∧
      Event.texImage 1 1 ∈ tr ∧ Event.quadDraw ∈ tr ∧ Event.swap ∈ tr ∧
      ∀ (y : List Nat) (oom2 rf2 : Bool) (w2 : DeviceWindow) (s2 : Sys Nat) (t2 : List Event),
        draw false (fun n : Nat => n) y 1 1 oom2 rf2 w' s' = some (w2, s2, t2) →
          w2.resource = 0 ∧ ∀ e ∈ t2, isAllocEvent e = false :=
  ⟨by decide, by decide,
   draw_alloc_failure_continues false (fun n : Nat => n) [0] 1 1 false
     DeviceWindow.init cSys (by decide) (by decide)⟩

end Draw
